import Mathlib

/-
Shallow embedding of the energy-tracker backend (Django app `energy`):
data model from `energy/models.py`, the goal-adjustment recompute engine
`update_previous_day_surplus_calories` from `energy/utils.py`, and the
read endpoints from `energy/views.py`.

Calendar dates are modelled as integers (day numbers); a timestamp is a
day number together with a microsecond-of-day, so that Django's inclusive
`timestamp__range` filter over `[midnight, 23:59:59.999999]` of a day is
the lexicographic comparison on (day, micro).
-/

namespace EnergyTracker

/-- A timezone-aware instant: calendar day plus microseconds within the day
(`datetime.time.min` is micro 0, `datetime.time.max` is micro 86399999999). -/
structure Timestamp where
  day : Int
  micro : Nat
deriving DecidableEq, Repr

/-- An `Intake` model row: label, calories, timestamp (models.py lines 45-48). -/
structure Intake where
  label : String
  calories : Int
  timestamp : Timestamp
deriving DecidableEq, Repr

/-- An `Expenditure` model row: calories and a unique calendar date (models.py 62-64). -/
structure Expenditure where
  calories : Int
  date : Int
deriving DecidableEq, Repr

/-- The `UserProfile` model row (models.py 11-15); `previous_day_surplus_calories`
is the spec's `adjustment`. -/
structure UserProfile where
  goal_weight : Int
  goal_daily_calorie_delta : Int
  previous_day_surplus_calories : Int
deriving DecidableEq, Repr

/-- The database state visible to the core: all Intake rows, all Expenditure
rows, and the singleton profile (`UserProfile.objects.first()`). -/
structure DB where
  intakes : List Intake
  expenditures : List Expenditure
  profile : UserProfile
deriving DecidableEq, Repr

/-- Inclusive comparison on instants (lexicographic on (day, micro)),
used by the `timestamp__range=(start, end)` filter. -/
def tsLe (a b : Timestamp) : Bool :=
  decide (a.day < b.day) || (a.day == b.day && decide (a.micro ≤ b.micro))

/-- Embeds `get_datetime_range_for_date` (utils.py 21-28): local midnight of the date
to the last representable instant of the date. -/
def get_datetime_range_for_date (date : Int) : Timestamp × Timestamp :=
  (⟨date, 0⟩, ⟨date, 86399999999⟩)

/-- Embeds `aggregate_calories_for_date_range` (utils.py 30-36): sum of `calories`
over rows whose timestamp lies in the inclusive range; `or 0` makes the
empty aggregate 0. -/
def aggregate_calories_for_date_range (intakes : List Intake)
    (dtStart dtEnd : Timestamp) : Int :=
  ((intakes.filter fun i =>
      tsLe dtStart i.timestamp && tsLe i.timestamp dtEnd).map Intake.calories).sum

/-- Embeds `Expenditure.objects.filter(date=d).first()`: first stored row with the
given date, if any. -/
def expenditureForDate (exps : List Expenditure) (d : Int) : Option Expenditure :=
  (exps.filter fun e => e.date == d).head?

/-- The calendar date an intake belongs to (`timezone.localtime(timestamp).date()`,
`TruncDay("timestamp")`). -/
def intakeDay (i : Intake) : Int := i.timestamp.day

/-- The goal-adjustment recompute engine, `update_previous_day_surplus_calories`
(utils.py 60-130): aggregates intake and expenditure for the single previous
day `date - 1`, then stores the clamped unmet deficit/surplus into
`UserProfile.previous_day_surplus_calories`. -/
def update_previous_day_surplus_calories (date : Int) (db : DB) : DB :=
  let previous_day := date - 1
  let range := get_datetime_range_for_date previous_day
  let total_intake := aggregate_calories_for_date_range db.intakes range.1 range.2
  let total_expenditure :=
    match expenditureForDate db.expenditures previous_day with
    | some er => er.calories
    | none => 0
  let goal_delta := db.profile.goal_daily_calorie_delta
  let remaining_calories := total_expenditure - total_intake
  let newSurplus :=
    if goal_delta < 0 then
      let unmet_deficit := |goal_delta| - remaining_calories
      if unmet_deficit > 0 then unmet_deficit else 0
    else
      if remaining_calories < goal_delta then goal_delta - remaining_calories
      else 0
  { db with profile := { db.profile with previous_day_surplus_calories := newSurplus } }

/-- Sum of intake calories of one calendar day (group-by-day bucket of
`aggregate_daily_calories`, utils/views `TruncDay("timestamp")` + `Sum("calories")`). -/
def intakeTotalForDay (intakes : List Intake) (d : Int) : Int :=
  ((intakes.filter fun i => intakeDay i == d).map Intake.calories).sum

/-- Sum of expenditure calories of one calendar day
(`Expenditure.objects.values("date").annotate(total_expenditure=Sum("calories"))`). -/
def expenditureTotalForDay (exps : List Expenditure) (d : Int) : Int :=
  ((exps.filter fun e => e.date == d).map Expenditure.calories).sum

/-- Insert a day into a strictly ascending list of days, keeping it strictly
ascending (duplicates collapse); models a SQL group-by key set ordered by date. -/
def insertDay (d : Int) : List Int → List Int
  | [] => [d]
  | x :: xs =>
    if d < x then d :: x :: xs
    else if d = x then x :: xs
    else x :: insertDay d xs

/-- The distinct days of a list, in ascending order (the group-by keys of an
`order_by("date")` grouped query). -/
def distinctSortedDays (l : List Int) : List Int := l.foldr insertDay []

/-- Embeds `aggregate_daily_calories` (views.py 47-53): intake grouped by calendar day,
each day paired with its calorie total, ascending by date. -/
def aggregate_daily_calories (intakes : List Intake) : List (Int × Int) :=
  (distinctSortedDays (intakes.map intakeDay)).map fun d =>
    (d, intakeTotalForDay intakes d)

/-- One row of a daily-balance response. -/
structure BalanceEntry where
  date : Int
  total_intake : Int
  total_expenditure : Int
  balance : Int
deriving DecidableEq, Repr

/-- Embeds `DailyBalancesView.get` (views.py 148-191): iterates the grouped daily
intakes, joins each against the expenditure-by-date dictionary with default 0,
and emits date/intake/expenditure/balance rows. -/
def dailyBalances (db : DB) : List BalanceEntry :=
  (aggregate_daily_calories db.intakes).map fun p =>
    let total_expenditure := expenditureTotalForDay db.expenditures p.1
    ⟨p.1, p.2, total_expenditure, p.2 - total_expenditure⟩

/-- The body of `DailyBalanceView.get` (views.py 131-145) after a date has been
obtained: single-date intake total, expenditure defaulting to 0 when no record
exists, balance = intake - expenditure. -/
def dailyBalance (db : DB) (date : Int) : BalanceEntry :=
  let range := get_datetime_range_for_date date
  let total_intake := aggregate_calories_for_date_range db.intakes range.1 range.2
  let total_expenditure :=
    match expenditureForDate db.expenditures date with
    | some er => er.calories
    | none => 0
  ⟨date, total_intake, total_expenditure, total_intake - total_expenditure⟩

/-- One row of the `daily_summary` response (views.py 265-271). -/
structure Summary where
  date : Int
  total_calories_consumed : Int
  total_expenditure : Int
  calorie_goal : Int
  remaining_calories_until_goal : Int
deriving DecidableEq, Repr

/-- Embeds `daily_summary` (views.py 224-273) after a date has been obtained:
`calorie_goal = total_expenditure + goal_daily_calorie_delta` and
`remaining = calorie_goal - total_intake`; the expenditure aggregate's falsy
`None`/`0` collapses to 0, i.e. a plain sum. -/
def daily_summary (db : DB) (date : Int) : Summary :=
  let range := get_datetime_range_for_date date
  let total_intake := aggregate_calories_for_date_range db.intakes range.1 range.2
  let total_expenditure := expenditureTotalForDay db.expenditures date
  let goal_daily_calorie_delta := db.profile.goal_daily_calorie_delta
  let calorie_goal := total_expenditure + goal_daily_calorie_delta
  let remaining_calories := calorie_goal - total_intake
  ⟨date, total_intake, total_expenditure, calorie_goal, remaining_calories⟩

/-- Embeds `get_adjusted_goal_for_date` (utils.py 46-57): single-date expenditure
(default 0) plus goal delta minus the stored adjustment. -/
def get_adjusted_goal_for_date (db : DB) (date : Int) : Int :=
  let total_expenditure :=
    match expenditureForDate db.expenditures date with
    | some er => er.calories
    | none => 0
  total_expenditure + db.profile.goal_daily_calorie_delta
    - db.profile.previous_day_surplus_calories

/-- A parsed `YYYY-MM-DD` calendar date. -/
structure Ymd where
  year : Nat
  month : Nat
  day : Nat
deriving DecidableEq, Repr

/-- Days of a month in the Gregorian calendar, as `datetime.date` validates. -/
def daysInMonth (y m : Nat) : Nat :=
  if m = 2 then
    if (y % 4 = 0 && y % 100 ≠ 0) || y % 400 = 0 then 29 else 28
  else if m = 4 || m = 6 || m = 9 || m = 11 then 30 else 31

/-- Split a character list at every dash, like `str.split("-")`: the empty
string gives one empty group, and each dash starts a new group. -/
def splitDashes : List Char → List (List Char)
  | [] => [[]]
  | c :: cs =>
    match splitDashes cs, decide (c = '-') with
    | rest, true => [] :: rest
    | [], false => [[c]]
    | g :: gs, false => (c :: g) :: gs

/-- Value of a nonempty all-digit character group, `none` otherwise
(what a strptime digit field accepts). -/
def digitsToNat? (cs : List Char) : Option Nat :=
  match cs, cs.all Char.isDigit with
  | [], _ => none
  | _, false => none
  | cs, true => some (cs.foldl (fun n c => n * 10 + (c.toNat - 48)) 0)

/-- Embeds `datetime.strptime(s, "%Y-%m-%d").date()`: exactly three dash-separated
digit groups — four-digit year, one- or two-digit month and day — with month
in 1..12, day valid for the month and year ≥ 1 (`datetime.MINYEAR`);
anything else raises `ValueError` (here: `none`). -/
def strptimeYmd (s : String) : Option Ymd :=
  match splitDashes s.data with
  | [ys, ms, ds] =>
    match digitsToNat? ys, digitsToNat? ms, digitsToNat? ds with
    | some y, some m, some d =>
      if ys.length = 4 && ms.length ≤ 2 && ds.length ≤ 2 && 1 ≤ y
          && 1 ≤ m && m ≤ 12 && 1 ≤ d && d ≤ daysInMonth y m then
        some ⟨y, m, d⟩
      else none
    | _, _, _ => none
  | _ => none

/-- Embeds `get_date_from_request` (views.py 20-28 / utils.py 11-19): absent parameter
defaults to today's local date; otherwise `strptime` parses it, raising
`ValueError` on malformed input (the dead `date is None` re-check cannot fire). -/
def get_date_from_request (dateParam : Option String) (today : Ymd) :
    Except String Ymd :=
  match dateParam with
  | none => Except.ok today
  | some s =>
    match strptimeYmd s with
    | some d => Except.ok d
    | none => Except.error "time data does not match format %Y-%m-%d"

/-- Day number of a calendar date (days since 1970-01-01, proleptic Gregorian),
the identification of `datetime.date` values with the integer days used by the
stored records. -/
def Ymd.toDay (d : Ymd) : Int :=
  let y : Int := if d.month ≤ 2 then (d.year : Int) - 1 else (d.year : Int)
  let era : Int := (if 0 ≤ y then y else y - 399) / 400
  let yoe : Int := y - era * 400
  let mp : Int := ((d.month : Int) + 9) % 12
  let doy : Int := (153 * mp + 2) / 5 + (d.day : Int) - 1
  let doe : Int := yoe * 365 + yoe / 4 - yoe / 100 + doy
  era * 146097 + doe - 719468

/-- An HTTP response body: either an error payload with key "error", or a
daily-balance payload. -/
inductive RespBody where
  | errorBody (msg : String)
  | balanceBody (b : BalanceEntry)
deriving DecidableEq, Repr

/-- An HTTP response: status code and body. -/
structure Response where
  status : Nat
  body : RespBody
deriving DecidableEq, Repr

/-- Embeds `DailyBalanceView.get` (views.py 114-145) end to end: parse the optional
date parameter, answering 400 with an error payload on `ValueError`, otherwise
200 with the daily balance. -/
def DailyBalanceView_get (db : DB) (dateParam : Option String) (today : Ymd) :
    Response :=
  match get_date_from_request dateParam today with
  | Except.error e => ⟨400, RespBody.errorBody e⟩
  | Except.ok d => ⟨200, RespBody.balanceBody (dailyBalance db d.toDay)⟩

/-- Least element of a list of days, if any. -/
def minDay? (l : List Int) : Option Int :=
  l.foldr (fun d acc =>
    match acc with
    | none => some d
    | some m => some (min d m)) none

/-- Modelled from the spec (§4.3), not from the source: the earliest available
record date `W` — earliest of the first IntakeRecord's date and the first
ExpenditureRecord's date. No such computation exists in `src/`. -/
def spec_earliest_record_date (db : DB) : Option Int :=
  minDay? (db.intakes.map intakeDay ++ db.expenditures.map Expenditure.date)

/-- Modelled from the spec (§4.3), not from the source: the entire-history
adjustment `|goalTotal| − netDelta` over the window `[W, D−1]`, with
`numDays = (D−1) − W`, `goalTotal = g × numDays`, and intake/expenditure
aggregated over the whole window. -/
def spec_entire_history_adjustment (db : DB) (date : Int) : Int :=
  match spec_earliest_record_date db with
  | none => 0
  | some w =>
    let dEnd := date - 1
    let numDays := dEnd - w
    let g := db.profile.goal_daily_calorie_delta
    let goalTotal := g * numDays
    let totalIntake :=
      ((db.intakes.filter fun i =>
          decide (w ≤ intakeDay i) && decide (intakeDay i ≤ dEnd)).map
        Intake.calories).sum
    let totalExpenditure :=
      ((db.expenditures.filter fun e =>
          decide (w ≤ e.date) && decide (e.date ≤ dEnd)).map
        Expenditure.calories).sum
    let netDelta := totalExpenditure - totalIntake
    |goalTotal| - netDelta

/-- The `total_intake` the recompute aggregates: intake calories of the single
previous day `date - 1` (utils.py 76-88). -/
def previousDayIntakeTotal (date : Int) (db : DB) : Int :=
  let range := get_datetime_range_for_date (date - 1)
  aggregate_calories_for_date_range db.intakes range.1 range.2

/-- The `total_expenditure` the recompute reads: the calories of the single
Expenditure row dated `date - 1`, or 0 when none exists (utils.py 90-92). -/
def previousDayExpenditureTotal (date : Int) (db : DB) : Int :=
  match expenditureForDate db.expenditures (date - 1) with
  | some er => er.calories
  | none => 0

/-- The recompute `update_previous_day_surplus_calories` only reads the intake list
filtered down to the previous day and the head of the matching expenditures,
so it computes the same profile on the restricted database. -/
def restrictToPreviousDay (date : Int) (db : DB) : DB :=
  let previous_day := date - 1
  let range := get_datetime_range_for_date previous_day
  { db with
    intakes := db.intakes.filter fun i =>
      tsLe range.1 i.timestamp && tsLe i.timestamp range.2,
    expenditures := db.expenditures.filter fun e => e.date == previous_day }

/- ------------------------------------------------------------------ -/
/- Helper lemmas shared by the claim theorems.                        -/
/- ------------------------------------------------------------------ -/

/-- Both branches of the recompute store the clamped value
`max 0 (|g| − (previous-day expenditure − previous-day intake))`. -/
theorem update_surplus_eq_max (date : Int) (db : DB) :
    (update_previous_day_surplus_calories date db).profile.previous_day_surplus_calories
    = max 0 (|db.profile.goal_daily_calorie_delta|
        - (previousDayExpenditureTotal date db - previousDayIntakeTotal date db)) := by
  simp only [update_previous_day_surplus_calories, previousDayExpenditureTotal,
    previousDayIntakeTotal]
  rcases abs_cases db.profile.goal_daily_calorie_delta with ⟨ha, hs⟩ | ⟨ha, hs⟩ <;>
    rw [ha] <;> split_ifs <;> omega

theorem mem_insertDay {y d : Int} {l : List Int} :
    y ∈ insertDay d l ↔ y = d ∨ y ∈ l := by
  induction l with
  | nil => simp [insertDay]
  | cons x xs ih =>
    by_cases h1 : d < x
    · simp [insertDay, h1]
    · by_cases h2 : d = x
      · subst h2
        simp only [insertDay, if_neg h1, if_pos rfl]
        constructor
        · intro h; exact Or.inr h
        · rintro (rfl | h)
          · exact List.mem_cons_self _ _
          · exact h
      · simp only [insertDay, if_neg h1, if_neg h2, List.mem_cons, ih]
        tauto

theorem pairwise_insertDay {d : Int} {l : List Int}
    (h : l.Pairwise (· < ·)) : (insertDay d l).Pairwise (· < ·) := by
  induction l with
  | nil => simp [insertDay]
  | cons x xs ih =>
    rcases List.pairwise_cons.mp h with ⟨hx, hxs⟩
    by_cases h1 : d < x
    · simp only [insertDay, if_pos h1]
      refine List.pairwise_cons.mpr ⟨?_, h⟩
      intro y hy
      rcases List.mem_cons.mp hy with rfl | hy
      · exact h1
      · exact lt_trans h1 (hx y hy)
    · by_cases h2 : d = x
      · simpa [insertDay, if_neg h1, if_pos h2] using h
      · have hxd : x < d := by omega
        simp only [insertDay, if_neg h1, if_neg h2]
        refine List.pairwise_cons.mpr ⟨?_, ih hxs⟩
        intro y hy
        rcases mem_insertDay.mp hy with rfl | hy
        · exact hxd
        · exact hx y hy

theorem mem_distinctSortedDays {y : Int} {l : List Int} :
    y ∈ distinctSortedDays l ↔ y ∈ l := by
  induction l with
  | nil => simp [distinctSortedDays]
  | cons x xs ih =>
    simp only [distinctSortedDays, List.foldr_cons, List.mem_cons]
    rw [mem_insertDay]
    rw [distinctSortedDays] at ih
    rw [ih]

theorem pairwise_distinctSortedDays (l : List Int) :
    (distinctSortedDays l).Pairwise (· < ·) := by
  induction l with
  | nil => simp [distinctSortedDays]
  | cons x xs ih => exact pairwise_insertDay ih

theorem dailyBalances_map_date (db : DB) :
    (dailyBalances db).map BalanceEntry.date
    = distinctSortedDays (db.intakes.map intakeDay) := by
  simp only [dailyBalances, aggregate_daily_calories, List.map_map]
  exact List.map_id _

/- ------------------------------------------------------------------ -/
/- Claim theorems.                                                    -/
/- ------------------------------------------------------------------ -/

/-- C1 counterexample: with a single 500-calorie intake on day 5, no
expenditures, goal delta −100 and affected date 10, the recompute stores 100
(previous-day-only lookback), while the spec's entire-history formula over
`[W, D−1] = [5, 9]` gives `|−100·4| − (0 − 500) = 900`: the engine does not
aggregate over the historical window. -/
theorem C1_counterexample :
    (update_previous_day_surplus_calories 10
        ⟨[⟨"snack", 500, ⟨5, 0⟩⟩], [], ⟨-1, -100, 0⟩⟩).profile.previous_day_surplus_calories
    ≠ spec_entire_history_adjustment ⟨[⟨"snack", 500, ⟨5, 0⟩⟩], [], ⟨-1, -100, 0⟩⟩ 10 := by
  decide

/-- C1 (amended): the recompute uses a fixed one-day lookback — its result
profile is unchanged when the database is restricted to the records of the
single previous day `D − 1`, so records earlier in the claimed window
`[W, D−1]` never influence the stored adjustment. -/
theorem C1_one_day_lookback (date : Int) (db : DB) :
    (update_previous_day_surplus_calories date (restrictToPreviousDay date db)).profile
    = (update_previous_day_surplus_calories date db).profile := by
  simp only [update_previous_day_surplus_calories, restrictToPreviousDay,
    aggregate_calories_for_date_range, expenditureForDate, get_datetime_range_for_date,
    List.filter_filter]
  simp [Bool.and_self]

/-- C2 counterexample: in the deficit-met scenario (goal delta −500, previous
day has expenditure 4000 and intake 2800) the recompute stores 0, not the raw
signed value −200: the stored adjustment is clamped at zero. -/
theorem C2_counterexample :
    (update_previous_day_surplus_calories 1
        ⟨[⟨"food", 2800, ⟨0, 0⟩⟩], [⟨4000, 0⟩], ⟨-1, -500, 0⟩⟩).profile.previous_day_surplus_calories
    ≠ -200 := by decide

/-- C2 (amended): for a deficit goal the recompute stores the clamped value
`max 0 (−g − netDelta)` with `netDelta` taken over the single previous day;
negative raw values are replaced by 0. -/
theorem C2_adjustment_clamped (date : Int) (db : DB)
    (h : db.profile.goal_daily_calorie_delta < 0) :
    (update_previous_day_surplus_calories date db).profile.previous_day_surplus_calories
    = max 0 (-db.profile.goal_daily_calorie_delta
        - (previousDayExpenditureTotal date db - previousDayIntakeTotal date db)) := by
  rw [update_surplus_eq_max date db, abs_of_neg h]

/-- C2 witness: the clamped formula applied to the deficit-met scenario, where
it evaluates to 0. -/
theorem C2_adjustment_clamped_witness :
    ((update_previous_day_surplus_calories 1
        ⟨[⟨"food", 2800, ⟨0, 0⟩⟩], [⟨4000, 0⟩], ⟨-1, -500, 0⟩⟩).profile.previous_day_surplus_calories
      = max 0 (-(⟨[⟨"food", 2800, ⟨0, 0⟩⟩], [⟨4000, 0⟩], ⟨-1, -500, 0⟩⟩ : DB).profile.goal_daily_calorie_delta
          - (previousDayExpenditureTotal 1 ⟨[⟨"food", 2800, ⟨0, 0⟩⟩], [⟨4000, 0⟩], ⟨-1, -500, 0⟩⟩
             - previousDayIntakeTotal 1 ⟨[⟨"food", 2800, ⟨0, 0⟩⟩], [⟨4000, 0⟩], ⟨-1, -500, 0⟩⟩)))
    ∧ (update_previous_day_surplus_calories 1
        ⟨[⟨"food", 2800, ⟨0, 0⟩⟩], [⟨4000, 0⟩], ⟨-1, -500, 0⟩⟩).profile.previous_day_surplus_calories
      = 0 :=
  ⟨C2_adjustment_clamped 1 ⟨[⟨"food", 2800, ⟨0, 0⟩⟩], [⟨4000, 0⟩], ⟨-1, -500, 0⟩⟩ (by decide),
   by decide⟩

/-- C3 counterexample: with no Intake and no Expenditure records at all and
goal delta −500, the recompute for date 0 stores 500, not 0. -/
theorem C3_counterexample :
    (update_previous_day_surplus_calories 0
        ⟨[], [], ⟨-1, -500, 0⟩⟩).profile.previous_day_surplus_calories ≠ 0 := by
  decide

/-- C3 (amended): when no Intake and no Expenditure record exists strictly
before date D, the recompute for D stores `|goalDailyCalorieDelta|` — which is
0 only when the goal delta itself is 0. -/
theorem C3_zero_window_stores_abs_goal (date : Int) (db : DB)
    (hI : ∀ i ∈ db.intakes, date ≤ intakeDay i)
    (hE : ∀ e ∈ db.expenditures, date ≤ e.date) :
    (update_previous_day_surplus_calories date db).profile.previous_day_surplus_calories
    = |db.profile.goal_daily_calorie_delta| := by
  have hIT : previousDayIntakeTotal date db = 0 := by
    simp only [previousDayIntakeTotal, aggregate_calories_for_date_range,
      get_datetime_range_for_date]
    have hnil : db.intakes.filter (fun i =>
        tsLe ⟨date - 1, 0⟩ i.timestamp && tsLe i.timestamp ⟨date - 1, 86399999999⟩) = [] := by
      rw [List.filter_eq_nil_iff]
      intro i hi
      have h := hI i hi
      simp only [intakeDay] at h
      simp only [tsLe, Bool.and_eq_true, Bool.or_eq_true, decide_eq_true_eq, beq_iff_eq]
      omega
    rw [hnil]
    simp
  have hET : previousDayExpenditureTotal date db = 0 := by
    simp only [previousDayExpenditureTotal, expenditureForDate]
    have hnil : db.expenditures.filter (fun e => e.date == date - 1) = [] := by
      rw [List.filter_eq_nil_iff]
      intro e he
      have h := hE e he
      simp only [beq_iff_eq]
      omega
    rw [hnil]
    simp
  rw [update_surplus_eq_max date db, hET, hIT]
  simp

/-- C3 witness: the zero-window theorem applied to the empty database with goal
delta −500, where the stored adjustment is 500. -/
theorem C3_zero_window_witness :
    ((update_previous_day_surplus_calories 0
        ⟨[], [], ⟨-1, -500, 0⟩⟩).profile.previous_day_surplus_calories
      = |(⟨[], [], ⟨-1, -500, 0⟩⟩ : DB).profile.goal_daily_calorie_delta|)
    ∧ (update_previous_day_surplus_calories 0
        ⟨[], [], ⟨-1, -500, 0⟩⟩).profile.previous_day_surplus_calories = 500 :=
  ⟨C3_zero_window_stores_abs_goal 0 ⟨[], [], ⟨-1, -500, 0⟩⟩ (by decide) (by decide),
   by decide⟩

/-- C4: the recompute is idempotent — running it twice for the same date with
no intervening data change leaves the whole database state, and in particular
the stored adjustment, identical to running it once. -/
theorem C4_recompute_idempotent (date : Int) (db : DB) :
    update_previous_day_surplus_calories date
      (update_previous_day_surplus_calories date db)
    = update_previous_day_surplus_calories date db := rfl

/-- C9: frame property — the recompute writes no Intake or Expenditure row,
and of the profile fields it changes only `previous_day_surplus_calories`:
`goal_weight` and `goal_daily_calorie_delta` are preserved. -/
theorem C9_recompute_frame (date : Int) (db : DB) :
    (update_previous_day_surplus_calories date db).intakes = db.intakes
    ∧ (update_previous_day_surplus_calories date db).expenditures = db.expenditures
    ∧ (update_previous_day_surplus_calories date db).profile.goal_weight
        = db.profile.goal_weight
    ∧ (update_previous_day_surplus_calories date db).profile.goal_daily_calorie_delta
        = db.profile.goal_daily_calorie_delta :=
  ⟨rfl, rfl, rfl, rfl⟩

/-- C10: the deficit branch and the surplus branch of the recompute agree —
for every goal delta the stored value is
`max 0 (|g| − (totalExpenditure − totalIntake))` over the previous day, and
hence the stored adjustment is always nonnegative. -/
theorem C10_branches_equivalent (date : Int) (db : DB) :
    (update_previous_day_surplus_calories date db).profile.previous_day_surplus_calories
      = max 0 (|db.profile.goal_daily_calorie_delta|
          - (previousDayExpenditureTotal date db - previousDayIntakeTotal date db))
    ∧ 0 ≤ (update_previous_day_surplus_calories date db).profile.previous_day_surplus_calories := by
  refine ⟨update_surplus_eq_max date db, ?_⟩
  rw [update_surplus_eq_max date db]
  exact le_max_left 0 _

/-- C5 counterexample: a database whose only record is an Expenditure entry
(300 calories on day 0) makes `dailyBalances` return no rows at all — a date
with an expenditure entry but no intake gets no daily-balance record. -/
theorem C5_counterexample :
    dailyBalances ⟨[], [⟨300, 0⟩], ⟨-1, 0, 0⟩⟩ = []
    ∧ (⟨[], [⟨300, 0⟩], ⟨-1, 0, 0⟩⟩ : DB).expenditures ≠ [] := by
  decide

/-- C5 (amended): `dailyBalances` returns one record per calendar date having
at least one Intake entry (dates with only expenditure are omitted), in
strictly ascending date order, with that date's intake total, expenditure
total defaulting to 0, and balance = totalIntake − totalExpenditure. -/
theorem C5_balances_intake_dates (db : DB) :
    ((dailyBalances db).map BalanceEntry.date).Pairwise (· < ·)
    ∧ (∀ d : Int, d ∈ (dailyBalances db).map BalanceEntry.date
        ↔ ∃ i ∈ db.intakes, intakeDay i = d)
    ∧ ∀ b ∈ dailyBalances db,
        b.total_intake = intakeTotalForDay db.intakes b.date
        ∧ b.total_expenditure = expenditureTotalForDay db.expenditures b.date
        ∧ b.balance = b.total_intake - b.total_expenditure := by
  refine ⟨?_, ?_, ?_⟩
  · rw [dailyBalances_map_date]
    exact pairwise_distinctSortedDays _
  · intro d
    rw [dailyBalances_map_date, mem_distinctSortedDays, List.mem_map]
  · intro b hb
    simp only [dailyBalances, aggregate_daily_calories, List.map_map,
      List.mem_map, Function.comp] at hb
    obtain ⟨d, _, rfl⟩ := hb
    exact ⟨rfl, rfl, rfl⟩

/-- C6: for a date with Intake records but no Expenditure record, the daily
balance is produced normally with `total_expenditure = 0` (no
missing-expenditure failure) and balance equal to the intake total. -/
theorem C6_missing_expenditure_defaults_zero (db : DB) (date : Int)
    (_hI : ∃ i ∈ db.intakes, intakeDay i = date)
    (hE : ∀ e ∈ db.expenditures, e.date ≠ date) :
    (dailyBalance db date).total_expenditure = 0
    ∧ (dailyBalance db date).balance = (dailyBalance db date).total_intake := by
  have hnil : db.expenditures.filter (fun e => e.date == date) = [] := by
    rw [List.filter_eq_nil_iff]
    intro e he
    simpa using hE e he
  constructor
  · simp [dailyBalance, expenditureForDate, hnil]
  · simp [dailyBalance, expenditureForDate, hnil]

/-- C6 witness: a database with one intake on day 0 and no expenditures. -/
theorem C6_missing_expenditure_witness :
    (dailyBalance ⟨[⟨"meal", 100, ⟨0, 0⟩⟩], [], ⟨-1, 0, 0⟩⟩ 0).total_expenditure = 0
    ∧ (dailyBalance ⟨[⟨"meal", 100, ⟨0, 0⟩⟩], [], ⟨-1, 0, 0⟩⟩ 0).balance
      = (dailyBalance ⟨[⟨"meal", 100, ⟨0, 0⟩⟩], [], ⟨-1, 0, 0⟩⟩ 0).total_intake :=
  C6_missing_expenditure_defaults_zero ⟨[⟨"meal", 100, ⟨0, 0⟩⟩], [], ⟨-1, 0, 0⟩⟩ 0
    (by decide) (by decide)

/-- C7: date handling — `"2024-03-15"` parses to the calendar date 2024-03-15,
an absent parameter yields the server's current local date, and an unparsable
string fails with the `ValueError`, which the daily-balance endpoint surfaces
as a 400 response carrying an error payload. -/
theorem C7_date_parsing (db : DB) (today : Ymd) :
    get_date_from_request (some "2024-03-15") today = Except.ok ⟨2024, 3, 15⟩
    ∧ get_date_from_request none today = Except.ok today
    ∧ get_date_from_request (some "not-a-date") today
        = Except.error "time data does not match format %Y-%m-%d"
    ∧ DailyBalanceView_get db (some "not-a-date") today
        = ⟨400, RespBody.errorBody "time data does not match format %Y-%m-%d"⟩ :=
  ⟨rfl, rfl, rfl, rfl⟩

/-- C8 counterexample: with an expenditure of 2000 on day 0, goal delta −500
and a stored adjustment of 100, `daily_summary`'s calorie goal is 1500 — not
the 1400 the formula `totalExpenditure + goalDailyCalorieDelta − adjustment`
would give: the summary endpoint does not subtract the adjustment. -/
theorem C8_counterexample :
    (daily_summary ⟨[], [⟨2000, 0⟩], ⟨-1, -500, 100⟩⟩ 0).calorie_goal
    ≠ (daily_summary ⟨[], [⟨2000, 0⟩], ⟨-1, -500, 100⟩⟩ 0).total_expenditure
      + (⟨[], [⟨2000, 0⟩], ⟨-1, -500, 100⟩⟩ : DB).profile.goal_daily_calorie_delta
      - (⟨[], [⟨2000, 0⟩], ⟨-1, -500, 100⟩⟩ : DB).profile.previous_day_surplus_calories := by
  decide

/-- C8 (amended): `daily_summary` computes
`effectiveGoal = totalExpenditure + goalDailyCalorieDelta` with no adjustment
subtraction, and `remainingCalories = effectiveGoal − totalIntake`; the
adjustment-subtracting formula lives only in the helper
`get_adjusted_goal_for_date`, which `daily_summary` does not use. -/
theorem C8_summary_formulas (db : DB) (date : Int) :
    (daily_summary db date).calorie_goal
      = (daily_summary db date).total_expenditure
        + db.profile.goal_daily_calorie_delta
    ∧ (daily_summary db date).remaining_calories_until_goal
      = (daily_summary db date).calorie_goal
        - (daily_summary db date).total_calories_consumed
    ∧ get_adjusted_goal_for_date db date
      = (dailyBalance db date).total_expenditure
        + db.profile.goal_daily_calorie_delta
        - db.profile.previous_day_surplus_calories :=
  ⟨rfl, rfl, rfl⟩

end EnergyTracker
